import Mathlib

/-!
Verification of the request admission and scheduling pipeline of a Groq API
client library.  The development shallowly embeds the relevant parts of the
source (core/rate_limit_handler.py, core/token_counter.py,
core/queue_manager.py, handlers/text_generation.py, core/model_registry.py,
exceptions/errors.py) as executable Lean definitions and proves or refutes
the frozen specification claims about them.

Modelling conventions:
  * Python wall-clock floats are modelled as rationals.
  * Python ints are modelled as integers.
  * The tiktoken encoder is an uninterpreted parameter `enc : String → Nat`
    giving the token count of a string.
  * Exceptions become `Except` results.  The source frequently wraps a body
    in a broad `except Exception` handler that re-raises a LockError whose
    message embeds the original exception; this wrapping is modelled by the
    `lockError` constructor carrying the original error value (in the source
    the original error survives only inside the message string).
  * RateLimitHandler keeps nine parallel scalar fields
    (request_limit/request_remaining/request_reset_time, the same for
    tokens and for audio_seconds).  They are grouped here into three
    `QuotaWindow` records; the correspondence is field-by-field.
-/

namespace GroqClient

/-! Rate limit tracker (core/rate_limit_handler.py) -/

/-- Error values raised by RateLimitHandler methods.  `lockError e` models
the broad `except Exception as e: raise LockError(...)` wrapper that turns
any exception `e` raised inside the locked block into a LockError. -/
inductive RLErr where
  | validationError (field : String)
  | rateLimitExceeded (code : String) (waitTime : ℚ)
  | lockError (inner : RLErr)
deriving Repr, DecidableEq

/-- One quota window: a limit, a remaining budget and a reset deadline
(0 meaning no pending reset). -/
structure QuotaWindow where
  limit : ℤ
  remaining : ℤ
  resetTime : ℚ
deriving Repr, DecidableEq

/-- The mutable state of RateLimitHandler: the requests, tokens and
audio-seconds windows plus the last update timestamp, as initialised in
RateLimitHandler.__init__. -/
structure RLState where
  requests : QuotaWindow
  tokens : QuotaWindow
  audioSeconds : QuotaWindow
  lastUpdate : ℚ
deriving Repr, DecidableEq

/-- The state produced by RateLimitHandler.__init__ (all fields zero). -/
def RLState.init : RLState := ⟨⟨0, 0, 0⟩, ⟨0, 0, 0⟩, ⟨0, 0, 0⟩, 0⟩

/-- Per-window lazy reset: if the reset deadline is positive and has been
reached, remaining snaps to the limit and the deadline clears (the
`if self.X_reset_time > 0 and current_time >= self.X_reset_time` blocks of
rate_limit_handler.py). -/
def QuotaWindow.lazyReset (w : QuotaWindow) (now : ℚ) : QuotaWindow :=
  if w.resetTime > 0 ∧ w.resetTime ≤ now then
    { w with remaining := w.limit, resetTime := 0 } else w

/-- The lazy reset performed at the top of can_proceed (lines 210-220 of
rate_limit_handler.py) on all three windows, and repeated verbatim in
get_status and in the post-sleep block of wait_if_needed. -/
def lazyReset (s : RLState) (now : ℚ) : RLState :=
  { s with requests := s.requests.lazyReset now,
           tokens := s.tokens.lazyReset now,
           audioSeconds := s.audioSeconds.lazyReset now }

/-- RateLimitHandler.can_proceed (lines 182-240): validates the requested
amounts, lazily resets the windows, then refuses iff some window with a
positive limit has less remaining than requested.  Returns the boolean
verdict together with the post-reset state. -/
def canProceed (s : RLState) (now : ℚ) (tokens requests audioSeconds : ℤ) :
    Except RLErr (Bool × RLState) :=
  if tokens < 0 then .error (.validationError "tokens")
  else if requests < 0 then .error (.validationError "requests")
  else if audioSeconds < 0 then .error (.validationError "audio_seconds")
  else
    let s := lazyReset s now
    if s.requests.limit > 0 ∧ s.requests.remaining < requests then .ok (false, s)
    else if s.tokens.limit > 0 ∧ s.tokens.remaining < tokens then .ok (false, s)
    else if s.audioSeconds.limit > 0 ∧ s.audioSeconds.remaining < audioSeconds then
      .ok (false, s)
    else .ok (true, s)

/-- Characterisation of the per-window lazy reset: a window whose deadline
is positive and reached snaps remaining to limit and clears the deadline;
any other window is untouched; the limit never changes. -/
def WinResetSpec (w : QuotaWindow) (now : ℚ) : Prop :=
  (w.lazyReset now).limit = w.limit ∧
  (w.resetTime > 0 ∧ w.resetTime ≤ now →
    (w.lazyReset now).remaining = w.limit ∧ (w.lazyReset now).resetTime = 0) ∧
  (¬(w.resetTime > 0 ∧ w.resetTime ≤ now) →
    (w.lazyReset now).remaining = w.remaining ∧ (w.lazyReset now).resetTime = w.resetTime)

@[simp] lemma lazyReset_requests (s : RLState) (now : ℚ) :
    (lazyReset s now).requests = s.requests.lazyReset now := rfl

@[simp] lemma lazyReset_tokens (s : RLState) (now : ℚ) :
    (lazyReset s now).tokens = s.tokens.lazyReset now := rfl

@[simp] lemma lazyReset_audioSeconds (s : RLState) (now : ℚ) :
    (lazyReset s now).audioSeconds = s.audioSeconds.lazyReset now := rfl

/-- The full statement of claim C1: can_proceed performs the lazy reset
described by `WinResetSpec` on each of the three windows and answers true
exactly when every window with a positive limit has at least the requested
amount remaining; a window whose limit is zero imposes no constraint, so
in particular the all-limits-zero state always admits. -/
def C1Spec (s : RLState) (now : ℚ) (T R S : ℤ) : Prop :=
  ((lazyReset s now).requests = s.requests.lazyReset now ∧
   (lazyReset s now).tokens = s.tokens.lazyReset now ∧
   (lazyReset s now).audioSeconds = s.audioSeconds.lazyReset now ∧
   WinResetSpec s.requests now ∧ WinResetSpec s.tokens now ∧
   WinResetSpec s.audioSeconds now) ∧
  ∃ b : Bool,
    canProceed s now T R S = .ok (b, lazyReset s now) ∧
    (b = true ↔
      ((lazyReset s now).requests.limit > 0 → R ≤ (lazyReset s now).requests.remaining) ∧
      ((lazyReset s now).tokens.limit > 0 → T ≤ (lazyReset s now).tokens.remaining) ∧
      ((lazyReset s now).audioSeconds.limit > 0 →
        S ≤ (lazyReset s now).audioSeconds.remaining)) ∧
    ((lazyReset s now).requests.limit = 0 ∧ (lazyReset s now).tokens.limit = 0 ∧
      (lazyReset s now).audioSeconds.limit = 0 → b = true)

/-- Wait-time computation of wait_if_needed (lines 250-271 of
rate_limit_handler.py): the maximum of (reset deadline − now) over the
windows whose deadline is positive and still in the future, with a
60 second default when that maximum is zero. -/
def computeWait (s : RLState) (now : ℚ) : ℚ :=
  let w : ℚ := 0
  let w := if s.requests.resetTime > 0 ∧ now < s.requests.resetTime then
    max w (s.requests.resetTime - now) else w
  let w := if s.tokens.resetTime > 0 ∧ now < s.tokens.resetTime then
    max w (s.tokens.resetTime - now) else w
  let w := if s.audioSeconds.resetTime > 0 ∧ now < s.audioSeconds.resetTime then
    max w (s.audioSeconds.resetTime - now) else w
  if w = 0 then 60 else w

/-- The locked first phase of wait_if_needed (lines 252-282): computes the
wait and, when it exceeds 300 seconds, raises
RateLimitExceeded("RATE_LIMIT_WAIT_TOO_LONG").  That raise happens inside
the `try ... except Exception as e: raise LockError(...)` block, so the
exception that actually reaches the caller is a LockError wrapping it. -/
def waitIfNeededLocked (s : RLState) (now : ℚ) : Except RLErr ℚ :=
  let w := computeWait s now
  if w > 300 then
    .error (.lockError (.rateLimitExceeded "RATE_LIMIT_WAIT_TOO_LONG" w))
  else .ok w

/-- RateLimitHandler.wait_if_needed (lines 242-306): on success the caller
sleeps for the computed wait outside the lock and the windows are then
lazily reset at wake-up time; on the long-wait error no sleep happens.
Returns the slept duration and the post-sleep state. -/
def waitIfNeeded (s : RLState) (now : ℚ) : Except RLErr (ℚ × RLState) :=
  match waitIfNeededLocked s now with
  | .error e => .error e
  | .ok w => if w > 0 then .ok (w, lazyReset s (now + w)) else .ok (w, s)

/-! Header ingestion and the quota window invariant -/

/-- The post-parse effect of one update_from_headers call (lines 68-169):
each recognised header is optional and applied independently; limit and
remaining headers overwrite the corresponding field verbatim, a reset
header sets the window deadline to now + parsed duration. -/
structure HeaderUpdate where
  requestLimit : Option ℤ
  requestRemaining : Option ℤ
  requestResetSeconds : Option ℚ
  tokenLimit : Option ℤ
  tokenRemaining : Option ℤ
  tokenResetSeconds : Option ℚ
  audioSecondsLimit : Option ℤ
  audioSecondsRemaining : Option ℤ
  audioSecondsResetSeconds : Option ℚ
deriving Repr, DecidableEq

/-- Application of the optional limit / remaining / reset values of one
window of a header bag. -/
def applyWin (w : QuotaWindow) (now : ℚ) (lim rem : Option ℤ) (reset : Option ℚ) :
    QuotaWindow :=
  { limit := lim.getD w.limit
    remaining := rem.getD w.remaining
    resetTime := match reset with | some r => now + r | none => w.resetTime }

/-- RateLimitHandler.update_from_headers, restricted to the successful
(parsing) path.  Every supplied value is copied verbatim; last_update is
stamped. -/
def updateFromHeaders (s : RLState) (now : ℚ) (h : HeaderUpdate) : RLState :=
  { requests := applyWin s.requests now h.requestLimit h.requestRemaining
      h.requestResetSeconds
    tokens := applyWin s.tokens now h.tokenLimit h.tokenRemaining h.tokenResetSeconds
    audioSeconds := applyWin s.audioSeconds now h.audioSecondsLimit
      h.audioSecondsRemaining h.audioSecondsResetSeconds
    lastUpdate := now }

/-- Per-window effect of refresh_if_needed without a callback: a passed
deadline is cleared without touching the remaining budget. -/
def QuotaWindow.clearReset (w : QuotaWindow) (now : ℚ) : QuotaWindow :=
  if w.resetTime > 0 ∧ w.resetTime ≤ now then { w with resetTime := 0 } else w

/-- refresh_if_needed without an api callback (lines 422-437): clears the
request and token reset deadlines that have passed, leaves remaining
untouched, and stamps last_update. -/
def refreshNoCallback (s : RLState) (now : ℚ) : RLState :=
  { s with requests := s.requests.clearReset now,
           tokens := s.tokens.clearReset now,
           lastUpdate := now }

/-- States reachable through the mutators of RateLimitHandler: the initial
state, header ingestion at any time with any parsed values, the lazy reset
performed by can_proceed / get_status / wait_if_needed, refresh_if_needed
without a callback, and reset(). -/
inductive Reachable : RLState → Prop where
  | init : Reachable RLState.init
  | ingest {s} (now : ℚ) (h : HeaderUpdate) :
      Reachable s → Reachable (updateFromHeaders s now h)
  | lazy {s} (now : ℚ) : Reachable s → Reachable (lazyReset s now)
  | refresh {s} (now : ℚ) : Reachable s → Reachable (refreshNoCallback s now)
  | resetAll {s} : Reachable s → Reachable RLState.init

/-- The quota window invariant claimed by the specification. -/
def WinWF (w : QuotaWindow) : Prop := 0 ≤ w.remaining ∧ w.remaining ≤ w.limit

/-- The claimed invariant on all three windows of a tracker state. -/
def StateWF (s : RLState) : Prop :=
  WinWF s.requests ∧ WinWF s.tokens ∧ WinWF s.audioSeconds

/-- A pair of optional limit / remaining header values that preserves the
window invariant: either both are reported with 0 ≤ remaining ≤ limit, or
neither is. -/
def goodPair : Option ℤ → Option ℤ → Bool
  | some l, some r => decide (0 ≤ r ∧ r ≤ l)
  | none, none => true
  | _, _ => false

/-- A header bag all of whose windows report invariant-preserving values. -/
def goodUpdate (h : HeaderUpdate) : Bool :=
  goodPair h.requestLimit h.requestRemaining &&
  goodPair h.tokenLimit h.tokenRemaining &&
  goodPair h.audioSecondsLimit h.audioSecondsRemaining

/-- Reachability when every ingestion along the way is invariant
preserving in the sense of `goodUpdate`. -/
inductive ReachableWF : RLState → Prop where
  | init : ReachableWF RLState.init
  | ingest {s} (now : ℚ) (h : HeaderUpdate) : goodUpdate h = true →
      ReachableWF s → ReachableWF (updateFromHeaders s now h)
  | lazy {s} (now : ℚ) : ReachableWF s → ReachableWF (lazyReset s now)
  | refresh {s} (now : ℚ) : ReachableWF s → ReachableWF (refreshNoCallback s now)
  | resetAll {s} : ReachableWF s → ReachableWF RLState.init

/-! Model registry (core/model_registry.py) -/

/-- The per-model record kept in ModelRegistry._models that the token
counter consumes: the model type ("chat" or "stt") and its context window
(the max_tokens entry, absent for stt models). -/
structure ModelInfo where
  type : String
  maxTokens : Option ℤ
deriving Repr, DecidableEq

/-- The registry table ModelRegistry._models: a finite association of
model ids to records. -/
def Registry := List (String × ModelInfo)

/-- Dictionary lookup in the registry table; is_model_supported is
`(lookupModel reg model).isSome` and get_type / get_max_tokens read the
fields of the returned record. -/
def lookupModel (reg : Registry) (model : String) : Option ModelInfo :=
  (List.find? (fun p => p.1 == model) reg).map (fun p => p.2)

/-! Token counter (core/token_counter.py) -/

/-- Error values raised on the token counting paths. -/
inductive TCErr where
  | validationError (field : String)
  | invalidModel (model : String)
  | messageFormatError (index : ℕ)
deriving Repr, DecidableEq

/-- A Python value held in a message field: a string, or some value of
another type. -/
inductive PyVal where
  | str (s : String)
  | nonStr
deriving Repr, DecidableEq

/-- A Python list element passed as a message: either not a dict at all,
or a dict with optional role and content entries. -/
inductive MsgItem where
  | notDict
  | dict (role : Option PyVal) (content : Option PyVal)
deriving Repr, DecidableEq

/-- The role and content strings of a well-formed message element. -/
def MsgItem.fields? : MsgItem → Option (String × String)
  | .dict (some (.str r)) (some (.str c)) => some (r, c)
  | _ => none

/-- The per-element checks of count_message_tokens (lines 164-179), in
source order: dictionary check, presence of the role and content keys,
content must be a string, role must be a string.  Every failure is a
MessageFormatError carrying the element index. -/
def checkItem (i : ℕ) (m : MsgItem) : Except TCErr (String × String) :=
  match m with
  | .notDict => .error (.messageFormatError i)
  | .dict role content =>
    match role, content with
    | none, _ => .error (.messageFormatError i)
    | some _, none => .error (.messageFormatError i)
    | some r, some c =>
      match c with
      | .nonStr => .error (.messageFormatError i)
      | .str cs =>
        match r with
        | .nonStr => .error (.messageFormatError i)
        | .str rs => .ok (rs, cs)

/-- The canonical framed form of a message (line 183 of token_counter.py):
im_start marker, role, newline, content, im_end marker. -/
def render (role content : String) : String :=
  "<|im_start|>" ++ role ++ "\n" ++ content ++ "<|im_end|>"

/-- The framed form of a well-formed element ("" for malformed ones, which
never reach the encoder). -/
def renderItem (m : MsgItem) : String :=
  match m.fields? with
  | some (r, c) => render r c
  | none => ""

/-- The assistant response prelude whose tokens are added when the final
message is not from the assistant (line 196 of token_counter.py). -/
def assistantPrelude : String := "<|im_start|>assistant\n"

/-- The accumulation loop of count_message_tokens (lines 164-190):
validates each element in order and sums the token counts of the framed
forms, threading the element index for error reporting. -/
def countLoop (enc : String → ℕ) (i : ℕ) (msgs : List MsgItem) : Except TCErr ℕ :=
  match msgs with
  | [] => .ok 0
  | m :: rest =>
    match checkItem i m with
    | .error e => .error e
    | .ok rc =>
      match countLoop enc (i + 1) rest with
      | .error e => .error e
      | .ok n => .ok (enc (render rc.1 rc.2) + n)

/-- The role of the final message as read by `messages[-1].get("role")`
(line 193): none when the entry is absent or not a string. -/
def lastRoleVal (msgs : List MsgItem) : Option String :=
  match msgs.getLast? with
  | some (.dict (some (.str r)) _) => some r
  | _ => none

/-- TokenCounter.count_message_tokens (lines 124-201): empty list is a
ValidationError on the messages field, unsupported model an InvalidModel
error; an stt model returns 0 before any element is inspected; otherwise
the framed forms are tokenized and summed and the assistant prelude is
added when the final role is not "assistant". -/
def countMessageTokens (enc : String → ℕ) (reg : Registry) (msgs : List MsgItem)
    (model : String) : Except TCErr ℕ :=
  if msgs = [] then .error (.validationError "messages")
  else
    match lookupModel reg model with
    | none => .error (.invalidModel model)
    | some info =>
      if info.type = "stt" then .ok 0
      else
        match countLoop enc 0 msgs with
        | .error e => .error e
        | .ok total =>
          if lastRoleVal msgs = some "assistant" then .ok total
          else .ok (total + enc assistantPrelude)

/-- TokenCounter.count_tokens (lines 85-122): empty prompt is a
ValidationError, unsupported model an InvalidModel error, an stt model
counts 0, otherwise the prompt is tokenized. -/
def countTokens (enc : String → ℕ) (reg : Registry) (prompt : String)
    (model : String) : Except TCErr ℕ :=
  if prompt = "" then .error (.validationError "prompt")
  else
    match lookupModel reg model with
    | none => .error (.invalidModel model)
    | some info =>
      if info.type = "stt" then .ok 0
      else .ok (enc prompt)

/-- True exactly on results that are a MessageFormatError. -/
def isMessageFormatError : Except TCErr ℕ → Bool
  | .error (.messageFormatError _) => true
  | _ => false

/-- A demonstration registry with one chat model (context window 100) and
one stt model, as produced by a catalog fetch. -/
def regDemo : Registry :=
  [("model-a", ⟨"chat", some 100⟩), ("whisper-large-v3", ⟨"stt", none⟩)]

/-- The full statement of claim C8: on a supported non-stt model the
message-sequence count equals the sum over the list of the token count of
each framed form, plus the assistant prelude count exactly when the final
role is not "assistant"; and the per-message counts agree with the
single-string count of the framed form. -/
def C8Spec (enc : String → ℕ) (reg : Registry) (msgs : List MsgItem)
    (model : String) : Prop :=
  countMessageTokens enc reg msgs model =
    .ok ((msgs.map (fun m => enc (renderItem m))).sum +
      (if lastRoleVal msgs = some "assistant" then 0 else enc assistantPrelude)) ∧
  ∀ m ∈ msgs, countTokens enc reg (renderItem m) model = .ok (enc (renderItem m))

/-! Pre-dispatch token limit check (handlers/text_generation.py) -/

/-- Error values on the handler path: the TokenLimitExceeded carrying
(requested_tokens, max_tokens), and the TextGenerationError that the
handler re-raises for any other failure inside the checked block. -/
inductive TGErr where
  | tokenLimitExceeded (requestedTokens maxTokens : ℤ)
  | textGenerationError (model : String)
deriving Repr, DecidableEq

/-- TextGenerationHandler._check_token_limits (lines 153-188 of
text_generation.py), the token check run by generate() before any
transport call: counts the message tokens, reads the model context
window (skipping the check when it is absent), and raises
TokenLimitExceeded(counted + declared max_tokens, context window) when
the sum exceeds the window; counting or registry failures are re-raised
as TextGenerationError. -/
def checkTokenLimits (enc : String → ℕ) (reg : Registry) (msgs : List MsgItem)
    (model : String) (maxTokens : ℤ) : Except TGErr Unit :=
  match countMessageTokens enc reg msgs model with
  | .error _ => .error (.textGenerationError model)
  | .ok currentTokens =>
    match lookupModel reg model with
    | none => .error (.textGenerationError model)
    | some info =>
      match info.maxTokens with
      | none => .ok ()
      | some modelMax =>
        if (currentTokens : ℤ) + maxTokens > modelMax then
          .error (.tokenLimitExceeded ((currentTokens : ℤ) + maxTokens) modelMax)
        else .ok ()

/-- TokenCounter.validate_token_limit (lines 224-262 of token_counter.py).
Unlike the pre-dispatch check of the generate() path, it compares only the
counted input tokens against the explicit max_tokens argument (or the
context window when the argument is absent) and does not add the declared
completion budget; it is called from validate_request_with_rate_limit,
not from the dispatch path. -/
def validateTokenLimit (enc : String → ℕ) (reg : Registry) (msgs : List MsgItem)
    (model : String) (maxTokens : Option ℤ) : Except TGErr Bool :=
  match lookupModel reg model with
  | none => .error (.textGenerationError model)
  | some info =>
    match (match maxTokens with | some v => some v | none => info.maxTokens) with
    | none => .ok true
    | some limit =>
      if limit < 0 then .error (.textGenerationError model)
      else
        match countMessageTokens enc reg msgs model with
        | .error _ => .error (.textGenerationError model)
        | .ok currentTokens =>
          if (currentTokens : ℤ) > limit then
            .error (.tokenLimitExceeded (currentTokens : ℤ) limit)
          else .ok true

/-- The full statement of claim C4: with the context window known, the
pre-dispatch check rejects exactly when counted + declared max_tokens
exceed it, and the raised error carries requested = counted + max_tokens
and max = context window. -/
def C4Spec (enc : String → ℕ) (reg : Registry) (msgs : List MsgItem)
    (model : String) (maxT cw : ℤ) : Prop :=
  ∃ counted : ℕ,
    countMessageTokens enc reg msgs model = .ok counted ∧
    ((counted : ℤ) + maxT > cw →
      checkTokenLimits enc reg msgs model maxT =
        .error (.tokenLimitExceeded ((counted : ℤ) + maxT) cw)) ∧
    ((counted : ℤ) + maxT ≤ cw →
      checkTokenLimits enc reg msgs model maxT = .ok ())

/-! Claims C9 and C10 on count_message_tokens validation -/

/-- The amended statement of claim C9: an empty list raises a
ValidationError on the messages field for every supported model; a
malformed element raises a MessageFormatError only on non-stt models,
because stt models return 0 before elements are inspected. -/
def C9Spec (enc : String → ℕ) (reg : Registry) (msgs : List MsgItem)
    (model : String) (info : ModelInfo) : Prop :=
  (msgs = [] → countMessageTokens enc reg msgs model =
    .error (.validationError "messages")) ∧
  (info.type = "stt" → msgs ≠ [] → countMessageTokens enc reg msgs model = .ok 0) ∧
  (info.type ≠ "stt" → msgs ≠ [] → (∃ m ∈ msgs, MsgItem.fields? m = none) →
    ∃ i, countMessageTokens enc reg msgs model = .error (.messageFormatError i))

/-- The full statement of claim C10: an stt model returns 0 for any
non-empty list without inspecting its elements, while the same list with a
malformed element raises a message-format error on any non-stt model. -/
def C10Spec (enc : String → ℕ) (reg : Registry) (msgs : List MsgItem)
    (model : String) : Prop :=
  countMessageTokens enc reg msgs model = .ok 0 ∧
  (∀ (reg2 : Registry) (model2 : String) (info2 : ModelInfo),
    lookupModel reg2 model2 = some info2 → info2.type ≠ "stt" →
    (∃ m ∈ msgs, MsgItem.fields? m = none) →
    ∃ i, countMessageTokens enc reg2 msgs model2 = .error (.messageFormatError i))

/-! Queue manager (core/queue_manager.py) -/

/-- Request priority levels (enum Priority). -/
inductive Priority where
  | low
  | normal
  | high
  | urgent
deriving Repr, DecidableEq

/-- Priority(priority.lower()) with the ValueError fallback to NORMAL
(enqueue lines 124-128).  The lowercasing step is not modelled: every use
in this development passes an already lowercase name, and no claim
depends on case-insensitivity. -/
def parsePriority (p : String) : Priority :=
  if p = "low" then .low
  else if p = "normal" then .normal
  else if p = "high" then .high
  else if p = "urgent" then .urgent
  else .normal

/-- The dataclass QueuedRequest.  The id is modelled as the
(time, counter) pair that the source renders as "req_<int(time)>_<n>";
the callable and its bound arguments play no role in the claims and are
omitted. -/
structure QueuedRequest where
  rid : ℚ × ℕ
  priority : Priority
  timestamp : ℚ
  retryCount : ℤ
  maxRetries : ℤ
  tokensRequired : ℤ
  originalPriority : Option Priority
deriving Repr, DecidableEq

/-- The statistics dictionary of QueueManager. -/
structure QMStats where
  totalQueued : ℕ
  totalProcessed : ℕ
  totalFailed : ℕ
  totalRetries : ℕ
deriving Repr, DecidableEq

/-- The state of QueueManager: the four priority FIFO lists, the
statistics, the request-id counter and the configured capacity. -/
structure QMState where
  urgent : List QueuedRequest
  high : List QueuedRequest
  normal : List QueuedRequest
  low : List QueuedRequest
  stats : QMStats
  requestCounter : ℕ
  maxQueueSize : ℕ
deriving Repr, DecidableEq

/-- A fresh QueueManager with the default capacity 1000. -/
def emptyQM : QMState := ⟨[], [], [], [], ⟨0, 0, 0, 0⟩, 0, 1000⟩

/-- The list self._queues[p]. -/
def getQueue (s : QMState) : Priority → List QueuedRequest
  | .urgent => s.urgent
  | .high => s.high
  | .normal => s.normal
  | .low => s.low

/-- Replacement of the list self._queues[p]. -/
def setQueue (s : QMState) : Priority → List QueuedRequest → QMState
  | .urgent, q => { s with urgent := q }
  | .high, q => { s with high := q }
  | .normal, q => { s with normal := q }
  | .low, q => { s with low := q }

/-- sum(len(queue) for queue in self._queues.values()). -/
def totalQueuedCount (s : QMState) : ℕ :=
  s.urgent.length + s.high.length + s.normal.length + s.low.length

/-- All queued requests across the four priorities. -/
def allRequests (s : QMState) : List QueuedRequest :=
  s.urgent ++ s.high ++ s.normal ++ s.low

/-- Errors raised by QueueManager methods; lockError models the broad
`except Exception` wrapper inside enqueue that converts the QueueFullError
raised under the lock into a LockError before it reaches the caller. -/
inductive QErr where
  | validationError (field : String)
  | queueFullError (queueSize maxSize : ℕ)
  | retryError (maxRetries : ℤ) (lastError : String)
  | lockError (inner : QErr)
deriving Repr, DecidableEq

/-- QueueManager.enqueue (lines 94-166), state part.  Argument validation
comes first; the capacity check runs under the lock before any mutation,
and the QueueFullError it raises is swallowed by the broad
`except Exception` handler that re-raises a LockError, so on that path the
returned state is the unmodified one; otherwise the id counter is bumped,
the request is created with retry_count 0 and original_priority equal to
its (coerced) priority, appended at the tail of its queue, and
total_queued is incremented.  The callable validation is not modelled. -/
def enqueue (s : QMState) (now : ℚ) (priority : String)
    (tokensRequired maxRetries : ℤ) : QMState × Except QErr (ℚ × ℕ) :=
  if tokensRequired < 0 then (s, .error (.validationError "tokens_required"))
  else if maxRetries < 0 then (s, .error (.validationError "max_retries"))
  else
    let prLevel := parsePriority priority
    if totalQueuedCount s ≥ s.maxQueueSize then
      (s, .error (.lockError (.queueFullError (totalQueuedCount s) s.maxQueueSize)))
    else
      let counter := s.requestCounter + 1
      let req : QueuedRequest :=
        { rid := (now, counter), priority := prLevel, timestamp := now, retryCount := 0,
          maxRetries := maxRetries, tokensRequired := tokensRequired,
          originalPriority := some prLevel }
      let s1 := { s with requestCounter := counter }
      let s2 := setQueue s1 prLevel (getQueue s1 prLevel ++ [req])
      ({ s2 with stats := { s2.stats with totalQueued := s2.stats.totalQueued + 1 } },
        .ok (now, counter))

/-- QueueManager._handle_request_error (lines 277-305) and its verbatim
sync twin _handle_request_error_sync (lines 378-406): total_failed is
always bumped; when retry_count < max_retries the request is retried —
retry_count incremented, total_retries bumped, and the request reinserted
at the tail of its original priority — otherwise a RetryError carrying
max_retries and the last error is raised (outside any wrapping handler). -/
def handleRequestError (s : QMState) (r : QueuedRequest) (err : String) :
    QMState × Except QErr Unit :=
  let s1 := { s with stats := { s.stats with totalFailed := s.stats.totalFailed + 1 } }
  if r.retryCount < r.maxRetries then
    let r1 := { r with retryCount := r.retryCount + 1,
                       priority := r.originalPriority.getD r.priority }
    let s2 := { s1 with stats :=
      { s1.stats with totalRetries := s1.stats.totalRetries + 1 } }
    -- the statistics updates leave the queue lists untouched, so the list
    -- appended to is the one already held by s
    (setQueue s2 r1.priority (getQueue s r1.priority ++ [r1]), .ok ())
  else (s1, .error (.retryError r.maxRetries err))

/-- One pass of the async worker over one priority,
_process_priority_queue (lines 207-240): pop the head of that queue if it
is non-empty; when the rate limiter admits its token requirement
(can_proceed, abstracted as the fixed predicate `adm`) the request is
executed and counted as processed, otherwise it is reinserted at the
front.  Returns the requests dispatched (zero or one). -/
def processPriorityAsync (adm : ℤ → Bool) (s : QMState) (p : Priority) :
    QMState × List QueuedRequest :=
  match getQueue s p with
  | [] => (s, [])
  | r :: rest =>
    let s1 := setQueue s p rest
    if adm r.tokensRequired then
      ({ s1 with stats :=
        { s1.stats with totalProcessed := s1.stats.totalProcessed + 1 } }, [r])
    else (setQueue s1 p (r :: rest), [])

/-- One full cycle of the async worker loop _process_queue_async
(lines 192-205): the four priorities are processed in the order urgent,
high, normal, low — one _process_priority_queue pass each — and the
dispatched requests are collected in order. -/
def asyncCycle (adm : ℤ → Bool) (s : QMState) : QMState × List QueuedRequest :=
  let r1 := processPriorityAsync adm s .urgent
  let r2 := processPriorityAsync adm r1.1 .high
  let r3 := processPriorityAsync adm r2.1 .normal
  let r4 := processPriorityAsync adm r3.1 .low
  (r4.1, r1.2 ++ r2.2 ++ r3.2 ++ r4.2)

/-- The body shared by the branches of _process_sync after the head of the
first non-empty queue has been popped (lines 353-376): if the rate limiter
refuses, the request is reinserted at the front of the queue of its own
priority and nothing is dispatched; otherwise it is executed and counted
as processed. -/
def syncStep (adm : ℤ → Bool) (s : QMState) (p : Priority) (r : QueuedRequest)
    (rest : List QueuedRequest) : QMState × Option QueuedRequest :=
  let s1 := setQueue s p rest
  if adm r.tokensRequired then
    ({ s1 with stats :=
      { s1.stats with totalProcessed := s1.stats.totalProcessed + 1 } }, some r)
  else (setQueue s1 r.priority (r :: getQueue s1 r.priority), none)

/-- QueueManager._process_sync (lines 334-376): pops the head of the
highest-priority non-empty queue (for-loop with break over urgent, high,
normal, low) and hands it to `syncStep`; returns immediately when all
queues are empty. -/
def processSyncOnce (adm : ℤ → Bool) (s : QMState) : QMState × Option QueuedRequest :=
  match s.urgent with
  | r :: rest => syncStep adm s .urgent r rest
  | [] =>
    match s.high with
    | r :: rest => syncStep adm s .high r rest
    | [] =>
      match s.normal with
      | r :: rest => syncStep adm s .normal r rest
      | [] =>
        match s.low with
        | r :: rest => syncStep adm s .low r rest
        | [] => (s, none)

/-- The admission predicate of an unconfigured rate limiter (all limits
zero): everything is admissible. -/
def admitAll : ℤ → Bool := fun _ => true

/-- The retry-count invariant claimed for every queued request. -/
def RetryWF (r : QueuedRequest) : Prop :=
  0 ≤ r.retryCount ∧ r.retryCount ≤ r.maxRetries

/-- The full statement of claim C6: on failure of a request whose
retry_count is still below max_retries, retry_count is incremented,
total_retries (and total_failed) are incremented, and the request is
reinserted at the tail of the queue of its original priority with every
other queue, the other statistics and the id counter untouched; otherwise
a RetryError carrying max_retries and the last cause is raised and only
total_failed changes.  Moreover both the error handler and enqueue
preserve 0 ≤ retry_count ≤ max_retries for every queued request. -/
def C6Spec (s : QMState) (r : QueuedRequest) (err : String) : Prop :=
  (r.retryCount < r.maxRetries →
    (handleRequestError s r err).2 = .ok () ∧
    (handleRequestError s r err).1.stats.totalFailed = s.stats.totalFailed + 1 ∧
    (handleRequestError s r err).1.stats.totalRetries = s.stats.totalRetries + 1 ∧
    (handleRequestError s r err).1.stats.totalQueued = s.stats.totalQueued ∧
    (handleRequestError s r err).1.stats.totalProcessed = s.stats.totalProcessed ∧
    (handleRequestError s r err).1.requestCounter = s.requestCounter ∧
    getQueue (handleRequestError s r err).1 (r.originalPriority.getD r.priority) =
      getQueue s (r.originalPriority.getD r.priority) ++
        [{ r with retryCount := r.retryCount + 1,
                  priority := r.originalPriority.getD r.priority }] ∧
    (∀ p, p ≠ r.originalPriority.getD r.priority →
      getQueue (handleRequestError s r err).1 p = getQueue s p)) ∧
  (r.maxRetries ≤ r.retryCount →
    (handleRequestError s r err).2 = .error (.retryError r.maxRetries err) ∧
    (handleRequestError s r err).1 =
      { s with stats := { s.stats with totalFailed := s.stats.totalFailed + 1 } }) ∧
  ((∀ q ∈ allRequests s, RetryWF q) → 0 ≤ r.retryCount →
    ∀ q ∈ allRequests (handleRequestError s r err).1, RetryWF q) ∧
  ((∀ q ∈ allRequests s, RetryWF q) → ∀ (now : ℚ) (prLevel : String) (tok mr : ℤ),
    ∀ q ∈ allRequests (enqueue s now prLevel tok mr).1, RetryWF q)

/-- The full statement of claim C7: enqueue on a full queue returns the
state unchanged — no queue gains the item, no statistic moves, the id
counter stays — and the error raised is the LockError-wrapped
QueueFullError produced by the broad except handler. -/
def C7Spec (s : QMState) (now : ℚ) (priority : String) (tok mr : ℤ) : Prop :=
  enqueue s now priority tok mr =
    (s, .error (.lockError (.queueFullError (totalQueuedCount s) s.maxQueueSize)))

/-- The amended statement of claim C5: the sync path services exactly the
head of the highest-priority non-empty queue (so no non-urgent item is
ever dispatched by it while an urgent item is queued), and the async cycle
dispatches an admissible urgent head before anything else within the same
cycle.  The async loop however continues to lower priorities after one
urgent pop, which is what the C5 counterexample exploits. -/
def C5Spec (adm : ℤ → Bool) (s : QMState) : Prop :=
  (∀ r rest, s.urgent = r :: rest →
    (processSyncOnce adm s).2 = if adm r.tokensRequired then some r else none) ∧
  (s.urgent = [] → ∀ r rest, s.high = r :: rest →
    (processSyncOnce adm s).2 = if adm r.tokensRequired then some r else none) ∧
  (s.urgent = [] → s.high = [] → ∀ r rest, s.normal = r :: rest →
    (processSyncOnce adm s).2 = if adm r.tokensRequired then some r else none) ∧
  (s.urgent = [] → s.high = [] → s.normal = [] → ∀ r rest, s.low = r :: rest →
    (processSyncOnce adm s).2 = if adm r.tokensRequired then some r else none) ∧
  (∀ r rest, s.urgent = r :: rest → adm r.tokensRequired = true →
    ∃ tail, (asyncCycle adm s).2 = r :: tail)

/-- The first urgent request of the C5 counterexample. -/
def c5u1 : QueuedRequest := ⟨(100, 1), .urgent, 100, 0, 3, 5, some .urgent⟩

/-- The second urgent request of the C5 counterexample. -/
def c5u2 : QueuedRequest := ⟨(101, 2), .urgent, 101, 0, 3, 5, some .urgent⟩

/-- The normal request of the C5 counterexample. -/
def c5n1 : QueuedRequest := ⟨(102, 3), .normal, 102, 0, 3, 5, some .normal⟩

/-- The queue state after enqueuing urgent, urgent, normal on a fresh
manager. -/
def c5s0 : QMState := ⟨[c5u1, c5u2], [], [c5n1], [], ⟨3, 0, 0, 0⟩, 3, 1000⟩

/-! Lemmas and theorems -/

lemma winResetSpec (w : QuotaWindow) (now : ℚ) : WinResetSpec w now := by
  unfold WinResetSpec QuotaWindow.lazyReset
  by_cases h : w.resetTime > 0 ∧ w.resetTime ≤ now <;> simp [h]

/-- C1: for every tracker state and non-negative requested amounts
(tokens T, requests R, audio seconds S), can_proceed first lazily resets
each window whose deadline is positive and reached, then returns true iff
every window with limit > 0 has remaining at least the requested amount;
windows with limit = 0 never cause a false verdict. -/
theorem c1_can_proceed_admits_iff (s : RLState) (now : ℚ) (T R S : ℤ)
    (hT : 0 ≤ T) (hR : 0 ≤ R) (hS : 0 ≤ S) : C1Spec s now T R S := by
  refine ⟨⟨rfl, rfl, rfl, winResetSpec _ _, winResetSpec _ _, winResetSpec _ _⟩, ?_⟩
  unfold canProceed
  rw [if_neg (by omega), if_neg (by omega), if_neg (by omega)]
  simp only [lazyReset_requests, lazyReset_tokens, lazyReset_audioSeconds]
  by_cases h1 : 0 < (s.requests.lazyReset now).limit ∧
      (s.requests.lazyReset now).remaining < R
  · refine ⟨false, by simp [h1], ?_, ?_⟩
    · simp only [Bool.false_eq_true, false_iff]
      intro hc
      exact absurd (hc.1 h1.1) (by omega)
    · intro hz
      exact absurd hz.1 (by omega)
  · by_cases h2 : 0 < (s.tokens.lazyReset now).limit ∧
        (s.tokens.lazyReset now).remaining < T
    · refine ⟨false, by simp [h1, h2], ?_, ?_⟩
      · simp only [Bool.false_eq_true, false_iff]
        intro hc
        exact absurd (hc.2.1 h2.1) (by omega)
      · intro hz
        exact absurd hz.2.1 (by omega)
    · by_cases h3 : 0 < (s.audioSeconds.lazyReset now).limit ∧
          (s.audioSeconds.lazyReset now).remaining < S
      · refine ⟨false, by simp [h1, h2, h3], ?_, ?_⟩
        · simp only [Bool.false_eq_true, false_iff]
          intro hc
          exact absurd (hc.2.2 h3.1) (by omega)
        · intro hz
          exact absurd hz.2.2 (by omega)
      · refine ⟨true, by simp [h1, h2, h3], ?_, fun _ => rfl⟩
        simp only [true_iff]
        push_neg at h1 h2 h3
        exact ⟨fun h => h1 h, fun h => h2 h, fun h => h3 h⟩

/-- Witness for C1 at a concrete input: a state with request limit 5 and
remaining 2, a token window whose reset deadline 4 has expired, queried at
time 10 for three tokens, one request and zero audio seconds. -/
theorem c1_witness :
    C1Spec ⟨⟨5, 2, 0⟩, ⟨8, 0, 4⟩, ⟨0, 0, 0⟩, 0⟩ 10 3 1 0 :=
  c1_can_proceed_admits_iff ⟨⟨5, 2, 0⟩, ⟨8, 0, 4⟩, ⟨0, 0, 0⟩, 0⟩ 10 3 1 0
    (by decide) (by decide) (by decide)

/-- C2 (code bug): with a single pending request-window reset 400 seconds
in the future the computed wait is 400 > 300, no sleep happens, but the
error that reaches the caller is a LockError wrapping the
rate-limit-exceeded error — not the RateLimitExceeded announced by the
claim and by the method docstring — because the raise sits inside the
broad `except Exception` handler. -/
theorem c2_long_wait_raises_lock_error :
    computeWait ⟨⟨0, 0, 400⟩, ⟨0, 0, 0⟩, ⟨0, 0, 0⟩, 0⟩ 0 = 400 ∧
    computeWait ⟨⟨0, 0, 0⟩, ⟨0, 0, 0⟩, ⟨0, 0, 0⟩, 0⟩ 0 = 60 ∧
    waitIfNeeded ⟨⟨0, 0, 400⟩, ⟨0, 0, 0⟩, ⟨0, 0, 0⟩, 0⟩ 0 =
      .error (.lockError (.rateLimitExceeded "RATE_LIMIT_WAIT_TOO_LONG" 400)) ∧
    waitIfNeeded ⟨⟨0, 0, 400⟩, ⟨0, 0, 0⟩, ⟨0, 0, 0⟩, 0⟩ 0 ≠
      .error (.rateLimitExceeded "RATE_LIMIT_WAIT_TOO_LONG" 400) := by
  have hw : waitIfNeeded ⟨⟨0, 0, 400⟩, ⟨0, 0, 0⟩, ⟨0, 0, 0⟩, 0⟩ 0 =
      .error (.lockError (.rateLimitExceeded "RATE_LIMIT_WAIT_TOO_LONG" 400)) := by
    norm_num [waitIfNeeded, waitIfNeededLocked, computeWait]
  refine ⟨by norm_num [computeWait], by norm_num [computeWait], hw, ?_⟩
  rw [hw]
  intro h
  exact RLErr.noConfusion (Except.error.inj h)

/-- C3 counterexample: a single ingestion from the fresh tracker that
reports `x-ratelimit-remaining-requests: 7` and nothing else yields a
reachable state whose requests window has remaining = 7 > limit = 0,
refuting the claim that every reachable state satisfies
remaining ≤ limit. -/
theorem c3_counterexample_remaining_exceeds_limit :
    Reachable (updateFromHeaders RLState.init 0
      ⟨none, some 7, none, none, none, none, none, none, none⟩) ∧
    (updateFromHeaders RLState.init 0
      ⟨none, some 7, none, none, none, none, none, none, none⟩).requests.remaining = 7 ∧
    (updateFromHeaders RLState.init 0
      ⟨none, some 7, none, none, none, none, none, none, none⟩).requests.limit = 0 ∧
    ¬ StateWF (updateFromHeaders RLState.init 0
      ⟨none, some 7, none, none, none, none, none, none, none⟩) := by
  refine ⟨Reachable.ingest 0 _ Reachable.init, by decide, by decide, ?_⟩
  intro hwf
  exact absurd hwf.1.2 (by decide)

lemma winWF_applyWin {w : QuotaWindow} (now : ℚ) {lim rem : Option ℤ}
    (reset : Option ℚ) (hw : WinWF w) (hg : goodPair lim rem = true) :
    WinWF (applyWin w now lim rem reset) := by
  cases lim with
  | none =>
      cases rem with
      | none => simpa [applyWin, WinWF] using hw
      | some r => simp [goodPair] at hg
  | some l =>
      cases rem with
      | none => simp [goodPair] at hg
      | some r =>
          simp only [goodPair, decide_eq_true_eq] at hg
          simpa [applyWin, WinWF] using hg

lemma winWF_lazyReset {w : QuotaWindow} (now : ℚ) (hw : WinWF w) :
    WinWF (w.lazyReset now) := by
  unfold QuotaWindow.lazyReset
  by_cases h : w.resetTime > 0 ∧ w.resetTime ≤ now <;>
    simp [h, WinWF] at hw ⊢ <;> omega

lemma winWF_clearReset {w : QuotaWindow} (now : ℚ) (hw : WinWF w) :
    WinWF (w.clearReset now) := by
  unfold QuotaWindow.clearReset
  by_cases h : w.resetTime > 0 ∧ w.resetTime ≤ now <;> simp [h, WinWF] at hw ⊢ <;> omega

/-- C3 amended: the quota window invariant 0 ≤ remaining ≤ limit holds in
every reachable state provided each header ingestion reports, for every
window, either both limit and remaining with 0 ≤ remaining ≤ limit or
neither; the tracker itself copies header values verbatim and enforces
nothing. -/
theorem c3_invariant_under_consistent_headers (s : RLState)
    (h : ReachableWF s) : StateWF s := by
  induction h with
  | init => exact ⟨⟨le_refl 0, le_refl 0⟩, ⟨le_refl 0, le_refl 0⟩, ⟨le_refl 0, le_refl 0⟩⟩
  | ingest now hu hg _ ih =>
      simp only [goodUpdate, Bool.and_eq_true] at hg
      exact ⟨winWF_applyWin now _ ih.1 hg.1.1, winWF_applyWin now _ ih.2.1 hg.1.2,
        winWF_applyWin now _ ih.2.2 hg.2⟩
  | lazy now _ ih =>
      exact ⟨winWF_lazyReset now ih.1, winWF_lazyReset now ih.2.1,
        winWF_lazyReset now ih.2.2⟩
  | refresh now _ ih => exact ⟨winWF_clearReset now ih.1, winWF_clearReset now ih.2.1, ih.2.2⟩
  | resetAll _ _ =>
      exact ⟨⟨le_refl 0, le_refl 0⟩, ⟨le_refl 0, le_refl 0⟩, ⟨le_refl 0, le_refl 0⟩⟩

/-- Witness for the amended C3 at a concrete trace: ingest limits 10 with
remaining 4 for requests, touch nothing else, then lazily reset at a later
time; the invariant holds in the resulting state. -/
theorem c3_witness :
    StateWF (lazyReset (updateFromHeaders RLState.init 3
      ⟨some 10, some 4, some 30, none, none, none, none, none, none⟩) 50) :=
  c3_invariant_under_consistent_headers _
    (ReachableWF.lazy 50 (ReachableWF.ingest 3 _ (by decide) ReachableWF.init))

lemma checkItem_of_fields {m : MsgItem} {r c : String} (i : ℕ)
    (h : m.fields? = some (r, c)) : checkItem i m = .ok (r, c) := by
  cases m with
  | notDict => simp [MsgItem.fields?] at h
  | dict role content =>
      cases role with
      | none => simp [MsgItem.fields?] at h
      | some rv =>
          cases content with
          | none => cases rv <;> simp [MsgItem.fields?] at h
          | some cv =>
              cases rv with
              | nonStr => cases cv <;> simp [MsgItem.fields?] at h
              | str rs =>
                  cases cv with
                  | nonStr => simp [MsgItem.fields?] at h
                  | str cs =>
                      simp only [MsgItem.fields?, Option.some.injEq, Prod.mk.injEq] at h
                      simp [checkItem, h.1, h.2]

lemma checkItem_of_bad {m : MsgItem} (i : ℕ) (h : m.fields? = none) :
    checkItem i m = .error (.messageFormatError i) := by
  cases m with
  | notDict => rfl
  | dict role content =>
      cases role with
      | none => rfl
      | some rv =>
          cases content with
          | none => rfl
          | some cv =>
              cases rv with
              | nonStr => cases cv <;> rfl
              | str rs =>
                  cases cv with
                  | nonStr => rfl
                  | str cs => simp [MsgItem.fields?] at h

lemma countLoop_good (enc : String → ℕ) (msgs : List MsgItem) (i : ℕ)
    (h : ∀ m ∈ msgs, (MsgItem.fields? m).isSome) :
    countLoop enc i msgs = .ok ((msgs.map (fun m => enc (renderItem m))).sum) := by
  induction msgs generalizing i with
  | nil => rfl
  | cons m rest ih =>
      have hm : (MsgItem.fields? m).isSome := h m (List.mem_cons_self m rest)
      obtain ⟨⟨r, c⟩, hrc⟩ := Option.isSome_iff_exists.mp hm
      have hrest := ih (i + 1) (fun x hx => h x (List.mem_cons_of_mem m hx))
      simp only [countLoop, checkItem_of_fields i hrc, hrest]
      simp [renderItem, hrc]

lemma countLoop_bad (enc : String → ℕ) (msgs : List MsgItem) (i : ℕ)
    (h : ∃ m ∈ msgs, MsgItem.fields? m = none) :
    ∃ j, countLoop enc i msgs = .error (.messageFormatError j) := by
  induction msgs generalizing i with
  | nil => simp at h
  | cons m rest ih =>
      by_cases hm : MsgItem.fields? m = none
      · exact ⟨i, by simp [countLoop, checkItem_of_bad i hm]⟩
      · obtain ⟨⟨r, c⟩, hrc⟩ :=
          Option.isSome_iff_exists.mp (Option.ne_none_iff_isSome.mp hm)
        obtain ⟨x, hx, hxn⟩ := h
        rcases List.mem_cons.mp hx with hx1 | hx2
        · exact absurd (hx1 ▸ hxn) hm
        · obtain ⟨j, hj⟩ := ih (i + 1) ⟨x, hx2, hxn⟩
          refine ⟨j, ?_⟩
          simp [countLoop, checkItem_of_fields i hrc, hj]

/-- Shared evaluation lemma: on a supported non-stt model and a non-empty
well-formed message list, count_message_tokens returns the sum of the
framed-form token counts plus the assistant prelude when the final role is
not "assistant". -/
lemma countMessageTokens_good (enc : String → ℕ) (reg : Registry)
    (msgs : List MsgItem) (model : String) {info : ModelInfo}
    (hm : lookupModel reg model = some info) (hty : info.type ≠ "stt")
    (hne : msgs ≠ []) (hgood : ∀ m ∈ msgs, (MsgItem.fields? m).isSome) :
    countMessageTokens enc reg msgs model =
      .ok ((msgs.map (fun m => enc (renderItem m))).sum +
        (if lastRoleVal msgs = some "assistant" then 0 else enc assistantPrelude)) := by
  unfold countMessageTokens
  rw [if_neg hne, hm]
  dsimp only
  rw [if_neg hty, countLoop_good enc msgs 0 hgood]
  by_cases hl : lastRoleVal msgs = some "assistant" <;> simp [hl]

lemma render_ne_empty (r c : String) : render r c ≠ "" := by
  intro h
  have h2 := congrArg String.length h
  simp only [render, String.length_append] at h2
  have e1 : ("<|im_start|>" : String).length = 12 := rfl
  have e2 : ("\n" : String).length = 1 := rfl
  have e3 : ("<|im_end|>" : String).length = 10 := rfl
  have e4 : ("" : String).length = 0 := rfl
  omega

/-- C8: for every non-empty well-formed message list and supported chat
model, count_message_tokens equals the sum of the count_tokens values of
the rendered forms plus, exactly when the final role is not "assistant",
the token count of the literal assistant prelude. -/
theorem c8_count_messages_is_sum_of_rendered (enc : String → ℕ) (reg : Registry)
    (msgs : List MsgItem) (model : String) (info : ModelInfo)
    (hm : lookupModel reg model = some info) (hty : info.type ≠ "stt")
    (hne : msgs ≠ []) (hgood : ∀ m ∈ msgs, (MsgItem.fields? m).isSome) :
    C8Spec enc reg msgs model := by
  refine ⟨countMessageTokens_good enc reg msgs model hm hty hne hgood, ?_⟩
  intro m hmem
  obtain ⟨⟨r, c⟩, hrc⟩ := Option.isSome_iff_exists.mp (hgood m hmem)
  have hr : renderItem m = render r c := by simp [renderItem, hrc]
  rw [hr]
  unfold countTokens
  rw [if_neg (render_ne_empty r c), hm]
  dsimp only
  rw [if_neg hty]

/-- Witness for C8: two user/assistant messages on the demo chat model,
with the string length as a concrete token encoder. -/
theorem c8_witness :
    C8Spec String.length regDemo
      [MsgItem.dict (some (.str "user")) (some (.str "hi")),
       MsgItem.dict (some (.str "assistant")) (some (.str "hello"))] "model-a" :=
  c8_count_messages_is_sum_of_rendered String.length regDemo
    [MsgItem.dict (some (.str "user")) (some (.str "hi")),
     MsgItem.dict (some (.str "assistant")) (some (.str "hello"))] "model-a"
    ⟨"chat", some 100⟩ rfl (by decide) (by decide) (by decide)

/-- C4: for every chat model whose context window is known and every
well-formed message list, the pre-dispatch token check raises
token-limit-exceeded exactly when counted input tokens + declared
max_tokens exceed the context window, carrying requested = counted +
max_tokens and max = context window. -/
theorem c4_token_limit_prereject (enc : String → ℕ) (reg : Registry)
    (msgs : List MsgItem) (model : String) (info : ModelInfo) (cw maxT : ℤ)
    (hm : lookupModel reg model = some info) (hty : info.type ≠ "stt")
    (hcw : info.maxTokens = some cw) (hne : msgs ≠ [])
    (hgood : ∀ m ∈ msgs, (MsgItem.fields? m).isSome) :
    C4Spec enc reg msgs model maxT cw := by
  have hc := countMessageTokens_good enc reg msgs model hm hty hne hgood
  refine ⟨_, hc, ?_, ?_⟩
  · intro hgt
    unfold checkTokenLimits
    rw [hc]
    dsimp only
    rw [hm]
    dsimp only
    rw [hcw]
    dsimp only
    rw [if_pos hgt]
  · intro hle
    unfold checkTokenLimits
    rw [hc]
    dsimp only
    rw [hm]
    dsimp only
    rw [hcw]
    dsimp only
    rw [if_neg (not_lt.mpr hle)]

/-- Witness for C4, the scenario of the specification: context window 100,
messages counting to 90 (via an encoder giving 90 to the rendered user
message and 0 to the assistant prelude), declared max_tokens 20; the check
rejects with token-limit-exceeded(requested = 110, max = 100). -/
theorem c4_witness :
    C4Spec (fun s => if s = assistantPrelude then 0 else 90) regDemo
      [MsgItem.dict (some (.str "user")) (some (.str "hi"))] "model-a" 20 100 :=
  c4_token_limit_prereject (fun s => if s = assistantPrelude then 0 else 90) regDemo
    [MsgItem.dict (some (.str "user")) (some (.str "hi"))] "model-a"
    ⟨"chat", some 100⟩ 100 20 rfl (by decide) rfl (by decide) (by decide)

/-- C9 counterexample: on the demo chat model an empty message list makes
count_message_tokens raise ValidationError("messages") — a plain
validation error, not the MessageFormatError subclass the claim
announces. -/
theorem c9_counterexample_empty_list_validation_error :
    countMessageTokens String.length regDemo [] "model-a" =
      .error (.validationError "messages") ∧
    isMessageFormatError (countMessageTokens String.length regDemo [] "model-a") =
      false := ⟨rfl, rfl⟩

/-- C9 amended: for every supported model, the empty list is rejected with
a validation error (not a message-format error), and a malformed element
is rejected with a message-format error exactly on the non-stt path. -/
theorem c9_empty_and_malformed_errors (enc : String → ℕ) (reg : Registry)
    (msgs : List MsgItem) (model : String) (info : ModelInfo)
    (hm : lookupModel reg model = some info) : C9Spec enc reg msgs model info := by
  refine ⟨?_, ?_, ?_⟩
  · intro he
    simp [countMessageTokens, he]
  · intro hstt hne
    unfold countMessageTokens
    rw [if_neg hne, hm]
    dsimp only
    rw [if_pos hstt]
  · intro hty hne hbad
    obtain ⟨j, hj⟩ := countLoop_bad enc msgs 0 hbad
    refine ⟨j, ?_⟩
    unfold countMessageTokens
    rw [if_neg hne, hm]
    dsimp only
    rw [if_neg hty, hj]

/-- Witness for the amended C9 on the demo chat model with a single
non-dict element. -/
theorem c9_witness :
    C9Spec String.length regDemo [MsgItem.notDict] "model-a" ⟨"chat", some 100⟩ :=
  c9_empty_and_malformed_errors String.length regDemo [MsgItem.notDict] "model-a"
    ⟨"chat", some 100⟩ rfl

/-- C10: for every supported stt model and non-empty message list,
count_message_tokens returns 0 without validating the elements; the same
list raises a message-format error on a chat model when it contains a
malformed element. -/
theorem c10_stt_skips_message_validation (enc : String → ℕ) (reg : Registry)
    (msgs : List MsgItem) (model : String) (info : ModelInfo)
    (hm : lookupModel reg model = some info) (hstt : info.type = "stt")
    (hne : msgs ≠ []) : C10Spec enc reg msgs model := by
  constructor
  · unfold countMessageTokens
    rw [if_neg hne, hm]
    dsimp only
    rw [if_pos hstt]
  · intro reg2 model2 info2 hm2 hty2 hbad
    obtain ⟨j, hj⟩ := countLoop_bad enc msgs 0 hbad
    refine ⟨j, ?_⟩
    unfold countMessageTokens
    rw [if_neg hne, hm2]
    dsimp only
    rw [if_neg hty2, hj]

/-- Witness for C10: a single malformed (non-dict) element on the stt
model of the demo registry. -/
theorem c10_witness :
    C10Spec String.length regDemo [MsgItem.notDict] "whisper-large-v3" :=
  c10_stt_skips_message_validation String.length regDemo [MsgItem.notDict]
    "whisper-large-v3" ⟨"stt", none⟩ rfl rfl (by decide)

lemma getQueue_setQueue_same (s : QMState) (p : Priority) (q : List QueuedRequest) :
    getQueue (setQueue s p q) p = q := by cases p <;> rfl

lemma getQueue_setQueue_other (s : QMState) {p p2 : Priority} (q : List QueuedRequest)
    (h : p2 ≠ p) : getQueue (setQueue s p q) p2 = getQueue s p2 := by
  cases p <;> cases p2 <;> first | rfl | exact absurd rfl h

lemma stats_setQueue (s : QMState) (p : Priority) (q : List QueuedRequest) :
    (setQueue s p q).stats = s.stats := by cases p <;> rfl

lemma counter_setQueue (s : QMState) (p : Priority) (q : List QueuedRequest) :
    (setQueue s p q).requestCounter = s.requestCounter := by cases p <;> rfl

lemma mem_setQueue_append {s s2 : QMState} {p : Priority} {r1 q : QueuedRequest}
    (hu : s2.urgent = s.urgent) (hh : s2.high = s.high) (hn : s2.normal = s.normal)
    (hl : s2.low = s.low)
    (hq : q ∈ allRequests (setQueue s2 p (getQueue s p ++ [r1]))) :
    q ∈ allRequests s ∨ q = r1 := by
  cases p <;> simp [allRequests, setQueue, getQueue, hu, hh, hn, hl,
    List.mem_append] at hq ⊢ <;> tauto

/-- C6: the retry policy of the queue error handlers (async and sync are
verbatim twins), together with preservation of the retry-count
invariant. -/
theorem c6_retry_policy (s : QMState) (r : QueuedRequest) (err : String) :
    C6Spec s r err := by
  unfold C6Spec
  refine ⟨?_, ?_, ?_, ?_⟩
  · intro hlt
    unfold handleRequestError
    dsimp only
    rw [if_pos hlt]
    cases hop : r.originalPriority.getD r.priority <;>
      refine ⟨rfl, rfl, rfl, rfl, rfl, rfl, rfl, ?_⟩ <;>
      · intro p hp
        cases p <;> first | rfl | exact absurd rfl hp
  · intro hge
    unfold handleRequestError
    dsimp only
    rw [if_neg (by omega)]
    exact ⟨rfl, rfl⟩
  · intro hwf hr0 q hq
    by_cases hlt : r.retryCount < r.maxRetries
    · have he : (handleRequestError s r err).1 =
          setQueue { s with stats := { { s.stats with
              totalFailed := s.stats.totalFailed + 1 } with
              totalRetries := s.stats.totalRetries + 1 } }
            (r.originalPriority.getD r.priority)
            (getQueue s (r.originalPriority.getD r.priority) ++
              [{ r with retryCount := r.retryCount + 1,
                        priority := r.originalPriority.getD r.priority }]) := by
        unfold handleRequestError
        dsimp only
        rw [if_pos hlt]
      rw [he] at hq
      rcases mem_setQueue_append rfl rfl rfl rfl hq with hold | hnew
      · exact hwf q hold
      · subst hnew
        refine ⟨?_, ?_⟩
        · show (0 : ℤ) ≤ r.retryCount + 1
          omega
        · show r.retryCount + 1 ≤ r.maxRetries
          omega
    · have he : (handleRequestError s r err).1 =
          { s with stats := { s.stats with totalFailed := s.stats.totalFailed + 1 } } := by
        unfold handleRequestError
        dsimp only
        rw [if_neg hlt]
      rw [he] at hq
      exact hwf q hq
  · intro hwf now prLevel tok mr q hq
    by_cases h1 : tok < 0
    · unfold enqueue at hq
      rw [if_pos h1] at hq
      exact hwf q hq
    · by_cases h2 : mr < 0
      · unfold enqueue at hq
        rw [if_neg h1, if_pos h2] at hq
        exact hwf q hq
      · by_cases h3 : totalQueuedCount s ≥ s.maxQueueSize
        · unfold enqueue at hq
          rw [if_neg h1, if_neg h2] at hq
          dsimp only at hq
          rw [if_pos h3] at hq
          exact hwf q hq
        · have he : (enqueue s now prLevel tok mr).1 =
              { setQueue { s with requestCounter := s.requestCounter + 1 }
                  (parsePriority prLevel)
                  (getQueue { s with requestCounter := s.requestCounter + 1 }
                    (parsePriority prLevel) ++
                    [{ rid := (now, s.requestCounter + 1),
                       priority := parsePriority prLevel, timestamp := now,
                       retryCount := 0, maxRetries := mr, tokensRequired := tok,
                       originalPriority := some (parsePriority prLevel) }]) with
                stats := { (setQueue { s with requestCounter := s.requestCounter + 1 }
                  (parsePriority prLevel)
                  (getQueue { s with requestCounter := s.requestCounter + 1 }
                    (parsePriority prLevel) ++
                    [{ rid := (now, s.requestCounter + 1),
                       priority := parsePriority prLevel, timestamp := now,
                       retryCount := 0, maxRetries := mr, tokensRequired := tok,
                       originalPriority := some (parsePriority prLevel) }])).stats with
                  totalQueued := (setQueue { s with
                    requestCounter := s.requestCounter + 1 } (parsePriority prLevel)
                    (getQueue { s with requestCounter := s.requestCounter + 1 }
                      (parsePriority prLevel) ++
                      [{ rid := (now, s.requestCounter + 1),
                         priority := parsePriority prLevel, timestamp := now,
                         retryCount := 0, maxRetries := mr, tokensRequired := tok,
                         originalPriority := some (parsePriority prLevel) }])).stats.totalQueued
                    + 1 } } := by
            unfold enqueue
            rw [if_neg h1, if_neg h2]
            dsimp only
            rw [if_neg h3]
          rw [he] at hq
          have hq2 : q ∈ allRequests (setQueue
              { s with requestCounter := s.requestCounter + 1 } (parsePriority prLevel)
              (getQueue s (parsePriority prLevel) ++
                [{ rid := (now, s.requestCounter + 1),
                   priority := parsePriority prLevel, timestamp := now,
                   retryCount := 0, maxRetries := mr, tokensRequired := tok,
                   originalPriority := some (parsePriority prLevel) }])) := by
            cases hpp : parsePriority prLevel <;> rw [hpp] at hq <;> exact hq
          rcases mem_setQueue_append rfl rfl rfl rfl hq2 with hold | hnew
          · exact hwf q hold
          · subst hnew
            refine ⟨?_, ?_⟩
            · show (0 : ℤ) ≤ 0
              omega
            · show (0 : ℤ) ≤ mr
              omega

/-- Witness for C6 at a concrete input: a normal-priority request with
retry_count 0 and max_retries 3 failing on an empty queue manager. -/
theorem c6_witness :
    C6Spec emptyQM ⟨(1, 1), .normal, 1, 0, 3, 0, some .normal⟩ "boom" :=
  c6_retry_policy emptyQM ⟨(1, 1), .normal, 1, 0, 3, 0, some .normal⟩ "boom"

/-- C7 (code bug on the error type): when the live count has reached the
capacity, enqueue is side-effect free exactly as claimed, but the error
that reaches the caller is a LockError wrapping the QueueFullError — not
the queue-full error announced by the claim and the method docstring —
because the raise sits inside the broad `except Exception` handler. -/
theorem c7_queue_full_side_effect_free (s : QMState) (now : ℚ) (priority : String)
    (tok mr : ℤ) (h1 : 0 ≤ tok) (h2 : 0 ≤ mr)
    (hfull : s.maxQueueSize ≤ totalQueuedCount s) : C7Spec s now priority tok mr := by
  unfold C7Spec enqueue
  rw [if_neg (by omega), if_neg (by omega)]
  dsimp only
  rw [if_pos hfull]

/-- Witness for C7: a queue manager with capacity 1 holding one request;
a further enqueue returns the state unchanged with the wrapped
queue-full error. -/
theorem c7_witness :
    C7Spec ⟨[⟨(1, 1), .normal, 1, 0, 3, 0, some .normal⟩], [], [], [],
      ⟨1, 0, 0, 0⟩, 1, 1⟩ 5 "normal" 0 3 :=
  c7_queue_full_side_effect_free _ 5 "normal" 0 3 (by decide) (by decide) (by decide)

/-- C5 amended: highest-priority-first selection holds for the sync path
in full, and for the async path within a cycle an admissible urgent head
is dispatched first. -/
theorem c5_priority_precedence (adm : ℤ → Bool) (s : QMState) : C5Spec adm s := by
  refine ⟨?_, ?_, ?_, ?_, ?_⟩
  · intro r rest hu
    unfold processSyncOnce
    rw [hu]
    unfold syncStep
    dsimp only
    by_cases hadm : adm r.tokensRequired <;> simp [hadm]
  · intro hu r rest hh
    unfold processSyncOnce
    rw [hu, hh]
    unfold syncStep
    dsimp only
    by_cases hadm : adm r.tokensRequired <;> simp [hadm]
  · intro hu hh r rest hn
    unfold processSyncOnce
    rw [hu, hh, hn]
    unfold syncStep
    dsimp only
    by_cases hadm : adm r.tokensRequired <;> simp [hadm]
  · intro hu hh hn r rest hl
    unfold processSyncOnce
    rw [hu, hh, hn, hl]
    unfold syncStep
    dsimp only
    by_cases hadm : adm r.tokensRequired <;> simp [hadm]
  · intro r rest hu hadm
    have h2 : (processPriorityAsync adm s .urgent).2 = [r] := by
      unfold processPriorityAsync
      rw [show getQueue s .urgent = r :: rest from hu]
      dsimp only
      rw [if_pos hadm]
    unfold asyncCycle
    dsimp only
    rw [h2]
    simp only [List.cons_append, List.nil_append, List.append_assoc]
    exact ⟨_, rfl⟩

/-- Witness for the amended C5 on a fresh queue manager with the
everything-admissible rate limiter. -/
theorem c5_witness : C5Spec admitAll emptyQM :=
  c5_priority_precedence admitAll emptyQM

/-- C5 counterexample: the state `c5s0` is reached by three enqueues on a
fresh manager; with every request admissible, one async worker cycle
dispatches the first urgent item and then the normal item, while the
second urgent item — at the head of the urgent queue and admissible from
the moment the first was popped — is still queued.  So the async loop
dispatches a non-urgent item before an admissible urgent head, refuting
the claim for the async path. -/
theorem c5_counterexample_async_interleaves_urgent :
    (enqueue ((enqueue ((enqueue emptyQM 100 "urgent" 5 3).1)
      101 "urgent" 5 3).1) 102 "normal" 5 3).1 = c5s0 ∧
    asyncCycle admitAll c5s0 =
      (⟨[c5u2], [], [], [], ⟨3, 2, 0, 0⟩, 3, 1000⟩, [c5u1, c5n1]) ∧
    c5n1.priority ≠ Priority.urgent ∧ c5u2.priority = Priority.urgent ∧
    admitAll c5u2.tokensRequired = true := by
  refine ⟨rfl, rfl, by decide, rfl, rfl⟩

end GroqClient

